import Mathlib

/-!
# WebAPI: the album service of `main.go`

A shallow embedding of the three HTTP handlers of `main.go` (`getAlbum`,
`postAlbums`, `getAlbumByID`) and of the package-level slice `albums` they
share, followed by theorems about them.

* The package-level variable `albums` is threaded explicitly: every handler
  takes the current slice and returns the slice it leaves behind.
* `*gin.Context` is an external collaborator.  It is modelled by the part of
  its interface the handlers use: the path parameters (`c.Param`), the request
  body, and the log of responses written through `c.IndentedJSON`.
* `c.BindJSON` is external as well and is taken as a parameter of `postAlbums`:
  an arbitrary function that receives the context and the target value and
  gives back the context it leaves, the target as filled in, and a Go `error`.
-/

namespace WebAPI

/-! ## Data model -/

/-- Go `float64`, carried as its IEEE 754 binary64 bit pattern.  The handlers never
compute with prices, they only store and echo them. -/
structure float64 where
  bits : Nat
deriving DecidableEq, Repr

/-- The rational value of a finite `float64`; `none` for infinities and NaN. -/
def float64.toRat (f : float64) : Option Rat :=
  let sign : Rat := if (f.bits / 2 ^ 63) % 2 = 1 then -1 else 1
  let e : Nat := (f.bits / 2 ^ 52) % 2 ^ 11
  let frac : Nat := f.bits % 2 ^ 52
  if e = 2047 then none
  else if e = 0 then some (sign * (frac : Rat) * (2 : Rat) ^ (-1074 : Int))
  else some (sign * ((2 ^ 52 + frac : Nat) : Rat) * (2 : Rat) ^ ((e : Int) - 1075))

/-- The Go constant `56.99` converted to `float64`. -/
def lit_56_99 : float64 := ⟨0x404C7EB851EB851F⟩

/-- The Go constant `17.99` converted to `float64`. -/
def lit_17_99 : float64 := ⟨0x4031FD70A3D70A3D⟩

/-- The Go constant `39.99` converted to `float64`. -/
def lit_39_99 : float64 := ⟨0x4043FEB851EB851F⟩

/-- The unit in the last place of a finite `float64`: the gap to the next one. -/
def float64.ulp (f : float64) : Rat :=
  let e : Nat := (f.bits / 2 ^ 52) % 2 ^ 11
  (2 : Rat) ^ (((max e 1 : Nat) : Int) - 1075)

/-- A finite `float64` is the rounding of the rational `q` to nearest: it lies less than
half a unit in the last place from `q`. -/
def float64.rounds (f : float64) (q : Rat) : Prop :=
  match f.toRat with
  | some r => |r - q| < f.ulp / 2
  | none => False

/-- Type `album` of `main.go`: data about a record album.  Go strings are modelled by
`String`, `==` on them by equality. -/
structure album where
  ID : String
  Title : String
  Artist : String
  Price : float64
deriving DecidableEq, Repr

/-- The zero value of `album`, what `var newAlbum album` declares. -/
def album.zero : album := ⟨"", "", "", ⟨0⟩⟩

/-- The initial value of the package-level slice `albums`: the seed record data. -/
def albums : List album :=
  [ { ID := "1", Title := "Blue Train", Artist := "John Coltrane", Price := lit_56_99 },
    { ID := "2", Title := "Jeru", Artist := "Gerry Mulligan", Price := lit_17_99 },
    { ID := "3", Title := "Sarah Vaughan and Clifford Brown", Artist := "Sarah Vaughan",
      Price := lit_39_99 } ]

/-! ## The part of `gin` the handlers use -/

/-- The values the handlers pass as `obj` to `c.IndentedJSON`: the slice of albums, one
album, or a `gin.H` map (here with string values, kept as a key/value list). -/
inductive Any where
  | albums (l : List album)
  | album (a : album)
  | H (m : List (String × String))
deriving DecidableEq, Repr

/-- One response written through the context: the HTTP status code and the value that is
serialised as the JSON body. -/
structure Response where
  code : Nat
  obj : Any
deriving DecidableEq, Repr

/-- The model of `*gin.Context`: path parameters, request body, and the responses written
so far, oldest first. -/
structure Context where
  Params : List (String × String)
  Body : String
  Written : List Response
deriving DecidableEq, Repr

/-- Method `c.Param(key)`: the value of the first path parameter named `key`, or the empty
string when there is none. -/
def Context.Param (c : Context) (key : String) : String :=
  match c.Params.find? (fun p => p.1 = key) with
  | some p => p.2
  | none => ""

/-- Method `c.IndentedJSON(code, obj)`: writes one response with the given status and
body. -/
def Context.IndentedJSON (c : Context) (code : Nat) (obj : Any) : Context :=
  { c with Written := c.Written ++ [⟨code, obj⟩] }

/-- Go `error`: `none` is `nil`. -/
abbrev error := Option String

/-- The signature of `c.BindJSON(&obj)`: from the context and the current value of the
target to the context it leaves, the target as bound, and the error. -/
abbrev Binder := Context → album → Context × album × error

def StatusOK : Nat := 200
def StatusCreated : Nat := 201
def StatusNotFound : Nat := 404

/-! ## The handlers -/

/-- Handler `getAlbum`: responds with the list of all albums as JSON. -/
def getAlbum (c : Context) (albums : List album) : Context × List album :=
  (c.IndentedJSON StatusOK (Any.albums albums), albums)

/-- Handler `postAlbums`: adds an album from JSON received in the request body. -/
def postAlbums (BindJSON : Binder) (c : Context) (albums : List album) :
    Context × List album :=
  let newAlbum := album.zero
  match BindJSON c newAlbum with
  | (c, _, some _) => (c, albums)
  | (c, newAlbum, none) =>
    let albums := albums ++ [newAlbum]
    (c.IndentedJSON StatusCreated (Any.album newAlbum), albums)

/-- The `for _, a := range albums` loop of `getAlbumByID` over the albums still to visit:
`some c` is the context after the `return` inside the loop, `none` means the loop ran
to its end. -/
def getAlbumByID.loop (c : Context) (id : String) : List album → Option Context
  | [] => none
  | a :: rest =>
    if a.ID = id then some (c.IndentedJSON StatusOK (Any.album a))
    else getAlbumByID.loop c id rest

/-- Handler `getAlbumByID`: locates the album whose ID value matches the `id` parameter
sent by the client, then returns that album as a response. -/
def getAlbumByID (c : Context) (albums : List album) : Context × List album :=
  let id := c.Param "id"
  match getAlbumByID.loop c id albums with
  | some c => (c, albums)
  | none =>
    (c.IndentedJSON StatusNotFound (Any.H [("message", "album not found")]), albums)

/-! ## The routes of `main` -/

/-- The three routes registered in `main`, each with what the router extracts for it. -/
inductive Request where
  | GET_albums
  | GET_albums_id (id : String)
  | POST_albums (body : String)
deriving DecidableEq, Repr

/-- The fresh context a request is handled in: nothing written yet; the `:id` segment
of `/albums/:id` is the path parameter `id`. -/
def Request.context : Request → Context
  | .GET_albums => ⟨[], "", []⟩
  | .GET_albums_id id => ⟨[("id", id)], "", []⟩
  | .POST_albums body => ⟨[], body, []⟩

/-- The dispatch set up in `main`: `GET /albums` to `getAlbum`, `GET /albums/:id` to
`getAlbumByID`, `POST /albums` to `postAlbums`. -/
def router (BindJSON : Binder) (r : Request) (albums : List album) : Context × List album :=
  match r with
  | .GET_albums => getAlbum r.context albums
  | .GET_albums_id _ => getAlbumByID r.context albums
  | .POST_albums _ => postAlbums BindJSON r.context albums

/-- The collection after serving the requests `rs` one after the other from `albums`. -/
def run (BindJSON : Binder) (albums : List album) (rs : List Request) : List album :=
  rs.foldl (fun s r => (router BindJSON r s).2) albums

/-- The contexts the requests `rs` leave, served one after the other from `albums`. -/
def responses (BindJSON : Binder) : List album → List Request → List Context
  | _, [] => []
  | albums, r :: rs =>
    (router BindJSON r albums).1 :: responses BindJSON (router BindJSON r albums).2 rs

/-- Whether a request is one of the two read operations. -/
def Request.isRead : Request → Bool
  | .GET_albums => true
  | .GET_albums_id _ => true
  | .POST_albums _ => false

/-! ## A binder for the examples -/

/-- The `float64` value `10.5`. -/
def lit_10_5 : float64 := ⟨0x4025000000000000⟩

/-- A stand-in for `c.BindJSON` in the examples: the bodies listed in `table` decode to
the album given with them, every other body is rejected with an error. -/
def tableBindJSON (table : List (String × album)) : Binder := fun c obj =>
  match table.find? (fun e => e.1 = c.Body) with
  | some e => (c, e.2, none)
  | none => (c, obj, some "invalid request")

/-- The request body of the create example. -/
def body4 : String :=
  "\x7b\"id\":\"4\",\"title\":\"Test\",\"artist\":\"Tester\",\"price\":10.5\x7d"

/-- The album the create example submits. -/
def album4 : album := ⟨"4", "Test", "Tester", lit_10_5⟩

/-- A body that repeats the id of the first seed record. -/
def body1 : String :=
  "\x7b\"id\":\"1\",\"title\":\"Giant Steps\",\"artist\":\"John Coltrane\",\"price\":10.5\x7d"

/-- The album of `body1`. -/
def album1 : album := ⟨"1", "Giant Steps", "John Coltrane", lit_10_5⟩

/-- A second album of id 2. -/
def album2b : album := ⟨"2", "Other", "Other", lit_10_5⟩

/-- The context of a fetch of the id `id`, nothing written yet. -/
def fetchContext (id : String) : Context := ⟨[("id", id)], "", []⟩

/-- The context of a create request with the body `body`, nothing written yet. -/
def createContext (body : String) : Context := ⟨[], body, []⟩

/-- The binder of the examples: it knows `body4` and `body1`. -/
def exampleBindJSON : Binder := tableBindJSON [(body4, album4), (body1, album1)]


/-! ## Facts about the scan of `getAlbumByID` -/

/-- The loop runs to its end exactly when no album has the id looked for. -/
theorem loop_eq_none_iff (c : Context) (id : String) (s : List album) :
    getAlbumByID.loop c id s = none ↔ ∀ a ∈ s, a.ID ≠ id := by
  induction s with
  | nil => simp [getAlbumByID.loop]
  | cons a rest ih =>
    by_cases h : a.ID = id
    · simp [getAlbumByID.loop, h]
    · simp [getAlbumByID.loop, h, ih]

/-- When some album has the id looked for, the loop returns at the first such album,
having written it with status 200. -/
theorem loop_first (c : Context) (id : String) (s : List album)
    (h : ∃ a ∈ s, a.ID = id) :
    ∃ (i : Nat) (hi : i < s.length), s[i].ID = id ∧
      (∀ (j : Nat) (hj : j < s.length), j < i → s[j].ID ≠ id) ∧
      getAlbumByID.loop c id s = some (c.IndentedJSON StatusOK (Any.album s[i])) := by
  induction s with
  | nil => simp at h
  | cons a rest ih =>
    by_cases ha : a.ID = id
    · refine ⟨0, by simp, by simpa using ha, ?_, by simp [getAlbumByID.loop, ha]⟩
      intro j _ hj
      omega
    · have hrest : ∃ b ∈ rest, b.ID = id := by
        obtain ⟨b, hb, hbid⟩ := h
        rcases List.mem_cons.mp hb with rfl | hb
        · exact absurd hbid ha
        · exact ⟨b, hb, hbid⟩
      obtain ⟨i, hi, hid, hbefore, hloop⟩ := ih hrest
      refine ⟨i + 1, by simpa using hi, by simpa using hid, ?_, ?_⟩
      · intro j hj hji
        cases j with
        | zero => simpa using ha
        | succ k =>
          have hk : k < rest.length := by simpa using hj
          simpa using hbefore k hk (by omega)
      · simpa [getAlbumByID.loop, ha] using hloop

/-- A return inside the loop is not affected by albums appended behind. -/
theorem loop_append_of_some (c : Context) (id : String) (s t : List album) (c1 : Context)
    (h : getAlbumByID.loop c id s = some c1) :
    getAlbumByID.loop c id (s ++ t) = some c1 := by
  induction s with
  | nil => simp [getAlbumByID.loop] at h
  | cons a rest ih =>
    by_cases ha : a.ID = id
    · simpa [getAlbumByID.loop, ha] using h
    · simp only [getAlbumByID.loop, ha, if_false, List.cons_append] at h ⊢
      exact ih h

/-- When the loop finds nothing in `s`, scanning `s ++ t` is scanning `t`. -/
theorem loop_append_of_none (c : Context) (id : String) (s t : List album)
    (h : getAlbumByID.loop c id s = none) :
    getAlbumByID.loop c id (s ++ t) = getAlbumByID.loop c id t := by
  induction s with
  | nil => rfl
  | cons a rest ih =>
    by_cases ha : a.ID = id
    · simp [getAlbumByID.loop, ha] at h
    · simp only [getAlbumByID.loop, ha, if_false, List.cons_append] at h ⊢
      exact ih h

/-- The response of `getAlbumByID` when the id is not in the collection. -/
theorem getAlbumByID_of_absent (c : Context) (s : List album)
    (h : ∀ a ∈ s, a.ID ≠ c.Param "id") :
    getAlbumByID c s =
      (c.IndentedJSON StatusNotFound (Any.H [("message", "album not found")]), s) := by
  have hl := (loop_eq_none_iff c (c.Param "id") s).mpr h
  simp [getAlbumByID, hl]

/-- The response of `getAlbumByID` when the id is in the collection. -/
theorem getAlbumByID_of_present (c : Context) (s : List album)
    (h : ∃ a ∈ s, a.ID = c.Param "id") :
    ∃ (i : Nat) (hi : i < s.length), s[i].ID = c.Param "id" ∧
      (∀ (j : Nat) (hj : j < s.length), j < i → s[j].ID ≠ c.Param "id") ∧
      getAlbumByID c s = (c.IndentedJSON StatusOK (Any.album s[i]), s) := by
  obtain ⟨i, hi, hid, hbefore, hloop⟩ := loop_first c (c.Param "id") s h
  exact ⟨i, hi, hid, hbefore, by simp [getAlbumByID, hloop]⟩

/-- Appending albums does not change the answer for an id that is already present. -/
theorem getAlbumByID_append_of_present (c : Context) (s t : List album)
    (h : ∃ a ∈ s, a.ID = c.Param "id") :
    (getAlbumByID c (s ++ t)).1 = (getAlbumByID c s).1 := by
  obtain ⟨i, hi, _, _, hloop⟩ := loop_first c (c.Param "id") s h
  have happ := loop_append_of_some c (c.Param "id") s t _ hloop
  simp [getAlbumByID, hloop, happ]

/-- The outcome of `postAlbums` when the body is bound without error. -/
theorem postAlbums_of_bound (B : Binder) (c c1 : Context) (s : List album) (a : album)
    (h : B c album.zero = (c1, a, none)) :
    postAlbums B c s = (c1.IndentedJSON StatusCreated (Any.album a), s ++ [a]) := by
  simp [postAlbums, h]

/-- The outcome of `postAlbums` when binding the body fails. -/
theorem postAlbums_of_error (B : Binder) (c c1 : Context) (s : List album) (a1 : album)
    (e : String) (h : B c album.zero = (c1, a1, some e)) :
    postAlbums B c s = (c1, s) := by
  simp [postAlbums, h]

/-! ## Get album by identifier -/

/-- C1: when some record of the collection has the requested id, `getAlbumByID` writes
exactly one response, with status 200 and as body the record at the first position (in
insertion order) whose ID equals the id: the ID of that record is the query, and no
record before it has that ID. -/
theorem getAlbumByID_returns_first_match (c : Context) (s : List album) (q : String)
    (hq : c.Param "id" = q) (h : ∃ a ∈ s, a.ID = q) :
    ∃ (i : Nat) (hi : i < s.length),
      (getAlbumByID c s).1.Written = c.Written ++ [⟨200, Any.album s[i]⟩] ∧
      s[i].ID = q ∧
      ∀ (j : Nat) (hj : j < s.length), j < i → s[j].ID ≠ q := by
  subst hq
  obtain ⟨i, hi, hid, hbefore, hget⟩ := getAlbumByID_of_present c s h
  exact ⟨i, hi, by simp [hget, Context.IndentedJSON, StatusOK], hid, hbefore⟩

/-- Witness of C1 on the seed collection with a second record of id 2 appended: the
fetch of id 2 finds a record. -/
theorem getAlbumByID_returns_first_match_witness :
    (∃ a ∈ albums ++ [album2b], a.ID = "2") ∧
    ∃ (i : Nat) (hi : i < (albums ++ [album2b]).length),
      (getAlbumByID (fetchContext "2") (albums ++ [album2b])).1.Written =
        (fetchContext "2").Written ++ [⟨200, Any.album (albums ++ [album2b])[i]⟩] ∧
      (albums ++ [album2b])[i].ID = "2" ∧
      ∀ (j : Nat) (hj : j < (albums ++ [album2b]).length),
        j < i → (albums ++ [album2b])[j].ID ≠ "2" :=
  ⟨⟨album2b, by decide, rfl⟩,
   getAlbumByID_returns_first_match (fetchContext "2") (albums ++ [album2b]) "2"
     (by decide) ⟨album2b, by decide, rfl⟩⟩

/-- C2: `getAlbumByID` writes exactly one response.  It is status 404 with the body
`{"message": "album not found"}` if and only if no record of the collection has the
requested id; otherwise its status is 200. -/
theorem getAlbumByID_not_found_iff (c : Context) (s : List album) (q : String)
    (hq : c.Param "id" = q) :
    ∃ r : Response, (getAlbumByID c s).1.Written = c.Written ++ [r] ∧
      (r = ⟨404, Any.H [("message", "album not found")]⟩ ↔ ∀ a ∈ s, a.ID ≠ q) ∧
      (r.code = 404 ↔ ∀ a ∈ s, a.ID ≠ q) ∧
      (¬ (∀ a ∈ s, a.ID ≠ q) → r.code = 200) := by
  subst hq
  by_cases h : ∀ a ∈ s, a.ID ≠ c.Param "id"
  · refine ⟨⟨404, Any.H [("message", "album not found")]⟩, ?_, ?_, ?_, ?_⟩
    · simp [getAlbumByID_of_absent c s h, Context.IndentedJSON, StatusNotFound]
    · exact ⟨fun _ => h, fun _ => rfl⟩
    · exact ⟨fun _ => h, fun _ => rfl⟩
    · intro hn
      exact absurd h hn
  · have hex : ∃ a ∈ s, a.ID = c.Param "id" := by
      by_contra hne
      exact h (fun a ha hid => hne ⟨a, ha, hid⟩)
    obtain ⟨i, hi, _, _, hget⟩ := getAlbumByID_of_present c s hex
    refine ⟨⟨200, Any.album s[i]⟩, ?_, ?_, ?_, ?_⟩
    · simp [hget, Context.IndentedJSON, StatusOK]
    · constructor
      · intro hr
        simp at hr
      · intro hall
        exact absurd hall h
    · constructor
      · intro hr
        simp at hr
      · intro hall
        exact absurd hall h
    · intro _
      rfl

/-- Witness of C2: a fetch of id 9 on the seed collection. -/
theorem getAlbumByID_not_found_iff_witness :
    (fetchContext "9").Param "id" = "9" ∧
    ∃ r : Response, (getAlbumByID (fetchContext "9") albums).1.Written =
        (fetchContext "9").Written ++ [r] ∧
      (r = ⟨404, Any.H [("message", "album not found")]⟩ ↔ ∀ a ∈ albums, a.ID ≠ "9") ∧
      (r.code = 404 ↔ ∀ a ∈ albums, a.ID ≠ "9") ∧
      (¬ (∀ a ∈ albums, a.ID ≠ "9") → r.code = 200) :=
  ⟨by decide, getAlbumByID_not_found_iff (fetchContext "9") albums "9" (by decide)⟩


/-! ## Create album -/

/-- C3: when the body is bound without error to the album `a`, `postAlbums` leaves the
collection `s ++ [a]`: one record longer, every earlier record at its position, `a`
last; a `getAlbum` that follows lists `s ++ [a]` with status 200. -/
theorem postAlbums_appends (B : Binder) (c c1 : Context) (s : List album) (a : album)
    (h : B c album.zero = (c1, a, none)) :
    (postAlbums B c s).2 = s ++ [a] ∧
    (postAlbums B c s).2.length = s.length + 1 ∧
    (∀ (i : Nat) (hi : i < s.length), (postAlbums B c s).2[i]? = some s[i]) ∧
    (postAlbums B c s).2.getLast? = some a ∧
    ∀ c2 : Context, (getAlbum c2 (postAlbums B c s).2).1.Written =
      c2.Written ++ [⟨200, Any.albums (s ++ [a])⟩] := by
  have hp := postAlbums_of_bound B c c1 s a h
  refine ⟨by simp [hp], by simp [hp], ?_, by simp [hp], ?_⟩
  · intro i hi
    simp [hp, List.getElem?_append_left hi]
  · intro c2
    simp [hp, getAlbum, Context.IndentedJSON, StatusOK]

/-- Witness of C3: creating the album of id 4 on the seed collection yields four records
with the new one last. -/
theorem postAlbums_appends_witness :
    exampleBindJSON (createContext body4) album.zero = (createContext body4, album4, none) ∧
    ((postAlbums exampleBindJSON (createContext body4) albums).2 = albums ++ [album4] ∧
     (postAlbums exampleBindJSON (createContext body4) albums).2.length = albums.length + 1 ∧
     (∀ (i : Nat) (hi : i < albums.length),
        (postAlbums exampleBindJSON (createContext body4) albums).2[i]? = some albums[i]) ∧
     (postAlbums exampleBindJSON (createContext body4) albums).2.getLast? = some album4 ∧
     ∀ c2 : Context,
       (getAlbum c2 (postAlbums exampleBindJSON (createContext body4) albums).2).1.Written =
         c2.Written ++ [⟨200, Any.albums (albums ++ [album4])⟩]) ∧
    (postAlbums exampleBindJSON (createContext body4) albums).2.length = 4 ∧
    album4 = ⟨"4", "Test", "Tester", lit_10_5⟩ ∧ lit_10_5.rounds (105 / 10) :=
  ⟨by decide,
   postAlbums_appends exampleBindJSON (createContext body4) (createContext body4) albums
     album4 (by decide),
   by decide, rfl, by
     simp only [float64.rounds, float64.toRat, float64.ulp, lit_10_5, abs_lt]
     norm_num⟩

/-- C4: when the body is bound without error to the album `a`, `postAlbums` writes one
response, status 201 with `a` itself as body, field for field, whatever the collection
held before. -/
theorem postAlbums_echoes (B : Binder) (c c1 : Context) (s : List album) (a : album)
    (h : B c album.zero = (c1, a, none)) :
    (postAlbums B c s).1.Written = c1.Written ++ [⟨201, Any.album a⟩] ∧
    (postAlbums B c s).1.Written =
      c1.Written ++ [⟨201, Any.album ⟨a.ID, a.Title, a.Artist, a.Price⟩⟩] ∧
    (postAlbums B c s).1 = c1.IndentedJSON 201 (Any.album a) := by
  have hp := postAlbums_of_bound B c c1 s a h
  refine ⟨by simp [hp, Context.IndentedJSON, StatusCreated],
    by simp [hp, Context.IndentedJSON, StatusCreated], by simp [hp, StatusCreated]⟩

/-- Witness of C4: the create example on the seed collection. -/
theorem postAlbums_echoes_witness :
    exampleBindJSON (createContext body4) album.zero = (createContext body4, album4, none) ∧
    (postAlbums exampleBindJSON (createContext body4) albums).1.Written =
      (createContext body4).Written ++ [⟨201, Any.album album4⟩] :=
  ⟨by decide,
   (postAlbums_echoes exampleBindJSON (createContext body4) (createContext body4) albums
     album4 (by decide)).1⟩

/-- C5: when binding the body fails, `postAlbums` leaves the collection as it was and the
context exactly as `BindJSON` left it: the handler itself writes no response. -/
theorem postAlbums_bind_failure (B : Binder) (c c1 : Context) (s : List album)
    (a1 : album) (e : String) (h : B c album.zero = (c1, a1, some e)) :
    (postAlbums B c s).2 = s ∧
    (postAlbums B c s).2.length = s.length ∧
    (postAlbums B c s).1 = c1 ∧
    (postAlbums B c s).1.Written = c1.Written := by
  have hp := postAlbums_of_error B c c1 s a1 e h
  simp [hp]

/-- Witness of C5: a body that is not JSON, on the seed collection. -/
theorem postAlbums_bind_failure_witness :
    exampleBindJSON (createContext "not json") album.zero =
      (createContext "not json", album.zero, some "invalid request") ∧
    (postAlbums exampleBindJSON (createContext "not json") albums).2 = albums ∧
    (postAlbums exampleBindJSON (createContext "not json") albums).2.length =
      albums.length ∧
    (postAlbums exampleBindJSON (createContext "not json") albums).1 =
      createContext "not json" ∧
    (postAlbums exampleBindJSON (createContext "not json") albums).1.Written =
      (createContext "not json").Written :=
  ⟨by decide,
   postAlbums_bind_failure exampleBindJSON (createContext "not json")
     (createContext "not json") albums album.zero "invalid request" (by decide)⟩

/-- C6: creating an album whose id `q` is already in the collection succeeds (status 201,
the album appended), and a fetch of `q` afterwards gives the response it gave before:
the record at the first position of the old collection whose ID is `q`, a position
before the one the new album was appended at. -/
theorem postAlbums_duplicate_id (B : Binder) (c c1 : Context) (s : List album) (a : album)
    (q : String) (hs : ∃ b ∈ s, b.ID = q) (h : B c album.zero = (c1, a, none))
    (ha : a.ID = q) :
    (postAlbums B c s).1.Written = c1.Written ++ [⟨201, Any.album a⟩] ∧
    (postAlbums B c s).2 = s ++ [a] ∧
    (postAlbums B c s).2[s.length]? = some a ∧
    ∀ c2 : Context, c2.Param "id" = q →
      (getAlbumByID c2 (postAlbums B c s).2).1 = (getAlbumByID c2 s).1 ∧
      ∃ (i : Nat) (hi : i < s.length),
        s[i].ID = q ∧ (∀ (j : Nat) (hj : j < s.length), j < i → s[j].ID ≠ q) ∧
        (postAlbums B c s).2[i]? = some s[i] ∧
        (getAlbumByID c2 (postAlbums B c s).2).1.Written =
          c2.Written ++ [⟨200, Any.album s[i]⟩] := by
  have hp := postAlbums_of_bound B c c1 s a h
  refine ⟨by simp [hp, Context.IndentedJSON, StatusCreated], by simp [hp], by simp [hp], ?_⟩
  intro c2 hq
  subst hq
  have hsame := getAlbumByID_append_of_present c2 s [a] hs
  obtain ⟨i, hi, hid, hbefore, hget⟩ := getAlbumByID_of_present c2 s hs
  refine ⟨by simp [hp, hsame], i, hi, hid, hbefore, ?_, ?_⟩
  · simp [hp, List.getElem?_append_left hi]
  · simp [hp, hsame, hget, Context.IndentedJSON, StatusOK]

/-- Witness of C6: creating a second album of id 1 on the seed collection. -/
theorem postAlbums_duplicate_id_witness :
    (∃ b ∈ albums, b.ID = "1") ∧
    exampleBindJSON (createContext body1) album.zero = (createContext body1, album1, none) ∧
    album1.ID = "1" ∧
    (getAlbumByID (fetchContext "1")
        (postAlbums exampleBindJSON (createContext body1) albums).2).1 =
      (getAlbumByID (fetchContext "1") albums).1 ∧
    (getAlbumByID (fetchContext "1")
        (postAlbums exampleBindJSON (createContext body1) albums).2).1.Written =
      [⟨200, Any.album ⟨"1", "Blue Train", "John Coltrane", lit_56_99⟩⟩] :=
  ⟨⟨⟨"1", "Blue Train", "John Coltrane", lit_56_99⟩, by decide, rfl⟩, by decide, rfl,
   ((postAlbums_duplicate_id exampleBindJSON (createContext body1) (createContext body1)
      albums album1 "1" ⟨⟨"1", "Blue Train", "John Coltrane", lit_56_99⟩, by decide, rfl⟩
      (by decide) rfl).2.2.2 (fetchContext "1") (by decide)).1,
   by decide⟩


/-! ## The seed prices -/

/-- The price of the first seed record is the `float64` nearest to 56.99. -/
theorem lit_56_99_rounds : lit_56_99.rounds (5699 / 100) := by
  simp only [float64.rounds, float64.toRat, float64.ulp, lit_56_99, abs_lt]
  norm_num

/-- The price of the second seed record is the `float64` nearest to 17.99. -/
theorem lit_17_99_rounds : lit_17_99.rounds (1799 / 100) := by
  simp only [float64.rounds, float64.toRat, float64.ulp, lit_17_99, abs_lt]
  norm_num

/-- The price of the third seed record is the `float64` nearest to 39.99. -/
theorem lit_39_99_rounds : lit_39_99.rounds (3999 / 100) := by
  simp only [float64.rounds, float64.toRat, float64.ulp, lit_39_99, abs_lt]
  norm_num

/-! ## Reads and sequences of requests -/

/-- Handler `getAlbumByID` returns the collection it was given. -/
theorem getAlbumByID_snd (c : Context) (s : List album) : (getAlbumByID c s).2 = s := by
  unfold getAlbumByID
  cases h : getAlbumByID.loop c (c.Param "id") s <;> simp [h]

/-- Serving a read request leaves the collection as it was. -/
theorem router_snd_of_isRead (B : Binder) (r : Request) (s : List album)
    (h : r.isRead = true) : (router B r s).2 = s := by
  cases r with
  | GET_albums => rfl
  | GET_albums_id id => exact getAlbumByID_snd _ s
  | POST_albums body => simp [Request.isRead] at h

/-- Every handler of `postAlbums` leaves the old collection or the old collection with
one album behind it. -/
theorem postAlbums_snd (B : Binder) (c : Context) (s : List album) :
    (postAlbums B c s).2 = s ∨
      ∃ c1 a, B c album.zero = (c1, a, none) ∧ (postAlbums B c s).2 = s ++ [a] := by
  rcases hB : B c album.zero with ⟨c1, a, e⟩
  cases e with
  | none => exact Or.inr ⟨c1, a, rfl, by simp [postAlbums_of_bound B c c1 s a hB]⟩
  | some e => exact Or.inl (by simp [postAlbums_of_error B c c1 s a e hB])

/-- One request either leaves the collection as it was, or it is a create whose body was
bound without error and leaves the collection with the bound album behind it. -/
theorem router_snd (B : Binder) (r : Request) (s : List album) :
    (router B r s).2 = s ∨
      ∃ body c1 a, r = Request.POST_albums body ∧
        B (Request.POST_albums body).context album.zero = (c1, a, none) ∧
        (router B r s).2 = s ++ [a] := by
  cases r with
  | GET_albums => exact Or.inl rfl
  | GET_albums_id id => exact Or.inl (getAlbumByID_snd _ s)
  | POST_albums body =>
    rcases postAlbums_snd B (Request.POST_albums body).context s with h | ⟨c1, a, hB, h⟩
    · exact Or.inl h
    · exact Or.inr ⟨body, c1, a, rfl, hB, h⟩

/-- Serving one more request at the end of a sequence. -/
theorem run_append_singleton (B : Binder) (s : List album) (rs : List Request)
    (r : Request) : run B s (rs ++ [r]) = (router B r (run B s rs)).2 := by
  simp [run, List.foldl_append]

/-- The collection a sequence of requests starts from is the beginning of the collection
it reaches. -/
theorem run_extends (B : Binder) (rs : List Request) (s : List album) :
    s <+: run B s rs := by
  induction rs generalizing s with
  | nil => exact ⟨[], by simp [run]⟩
  | cons r rs ih =>
    have hstep : s <+: (router B r s).2 := by
      rcases router_snd B r s with h | ⟨_, _, a, _, _, h⟩
      · exact ⟨[], by simp [h]⟩
      · exact ⟨[a], h.symm⟩
    exact List.IsPrefix.trans hstep (ih (router B r s).2)

/-- A sequence of read requests leaves the collection as it was. -/
theorem run_of_reads (B : Binder) (s : List album) (rs : List Request)
    (h : ∀ r ∈ rs, r.isRead = true) : run B s rs = s := by
  induction rs with
  | nil => rfl
  | cons r rs ih =>
    have hr : (router B r s).2 = s := router_snd_of_isRead B r s (h r (by simp))
    have ih2 := ih (fun x hx => h x (by simp [hx]))
    simpa [run, hr] using ih2

/-- In a sequence of read requests every response is the one the request gets on the
starting collection. -/
theorem responses_of_reads (B : Binder) (s : List album) (rs : List Request)
    (h : ∀ r ∈ rs, r.isRead = true) :
    responses B s rs = rs.map (fun r => (router B r s).1) := by
  induction rs with
  | nil => rfl
  | cons r rs ih =>
    have hr : (router B r s).2 = s := router_snd_of_isRead B r s (h r (by simp))
    have ih2 := ih (fun x hx => h x (by simp [hx]))
    simp [responses, hr, ih2]

/-- C7: on the initial state `getAlbum` responds with status 200 and exactly the three
seed records in their order: ("1", "Blue Train", "John Coltrane", 56.99),
("2", "Jeru", "Gerry Mulligan", 17.99), ("3", "Sarah Vaughan and Clifford Brown",
"Sarah Vaughan", 39.99), each price being the `float64` nearest to the decimal. -/
theorem getAlbum_initial (B : Binder) (c : Context) :
    ∃ p1 p2 p3 : float64,
      p1.rounds (5699 / 100) ∧ p2.rounds (1799 / 100) ∧ p3.rounds (3999 / 100) ∧
      run B albums [] = albums ∧
      (getAlbum c (run B albums [])).1.Written = c.Written ++
        [⟨200, Any.albums
          [⟨"1", "Blue Train", "John Coltrane", p1⟩,
           ⟨"2", "Jeru", "Gerry Mulligan", p2⟩,
           ⟨"3", "Sarah Vaughan and Clifford Brown", "Sarah Vaughan", p3⟩]⟩] ∧
      (router B Request.GET_albums (run B albums [])).1.Written =
        [⟨200, Any.albums
          [⟨"1", "Blue Train", "John Coltrane", p1⟩,
           ⟨"2", "Jeru", "Gerry Mulligan", p2⟩,
           ⟨"3", "Sarah Vaughan and Clifford Brown", "Sarah Vaughan", p3⟩]⟩] :=
  ⟨lit_56_99, lit_17_99, lit_39_99, lit_56_99_rounds, lit_17_99_rounds, lit_39_99_rounds,
    rfl, rfl, rfl⟩

/-- C8: the two read operations leave the collection as it was, so in a sequence of read
requests the collection stays the same, every response is the one the request gets on
the starting collection, and equal requests get equal responses. -/
theorem reads_have_no_side_effects (B : Binder) (s : List album) (rs : List Request)
    (h : ∀ r ∈ rs, r.isRead = true) :
    (∀ c : Context, (getAlbum c s).2 = s) ∧
    (∀ c : Context, (getAlbumByID c s).2 = s) ∧
    (∀ n : Nat, run B s (rs.take n) = s) ∧
    run B s rs = s ∧
    responses B s rs = rs.map (fun r => (router B r s).1) ∧
    ∀ (i j : Nat) (hi : i < rs.length) (hj : j < rs.length), rs[i] = rs[j] →
      (responses B s rs)[i]? = (responses B s rs)[j]? := by
  have hresp := responses_of_reads B s rs h
  refine ⟨fun _ => rfl, fun c => getAlbumByID_snd c s, ?_, run_of_reads B s rs h, hresp, ?_⟩
  · intro n
    exact run_of_reads B s (rs.take n) (fun r hr => h r (List.mem_of_mem_take hr))
  · intro i j hi hj hij
    simp [hresp, List.getElem?_map, List.getElem?_eq_getElem hi, List.getElem?_eq_getElem hj,
      hij]

/-- Witness of C8: list, fetch of id 2, list, fetch of id 2, fetch of id 9 on the seed
collection. -/
theorem reads_have_no_side_effects_witness :
    (∀ r ∈ [Request.GET_albums, Request.GET_albums_id "2", Request.GET_albums,
        Request.GET_albums_id "2", Request.GET_albums_id "9"], r.isRead = true) ∧
    run exampleBindJSON albums [Request.GET_albums, Request.GET_albums_id "2",
        Request.GET_albums, Request.GET_albums_id "2", Request.GET_albums_id "9"] = albums ∧
    (responses exampleBindJSON albums [Request.GET_albums, Request.GET_albums_id "2",
        Request.GET_albums, Request.GET_albums_id "2", Request.GET_albums_id "9"])[1]? =
      (responses exampleBindJSON albums [Request.GET_albums, Request.GET_albums_id "2",
        Request.GET_albums, Request.GET_albums_id "2", Request.GET_albums_id "9"])[3]? :=
  ⟨by decide,
   (reads_have_no_side_effects exampleBindJSON albums [Request.GET_albums,
      Request.GET_albums_id "2", Request.GET_albums, Request.GET_albums_id "2",
      Request.GET_albums_id "9"] (by decide)).2.2.2.1,
   (reads_have_no_side_effects exampleBindJSON albums [Request.GET_albums,
      Request.GET_albums_id "2", Request.GET_albums, Request.GET_albums_id "2",
      Request.GET_albums_id "9"] (by decide)).2.2.2.2.2 1 3 (by decide) (by decide) rfl⟩


/-- The collection after `i + 1` requests is the collection after `i` requests with the
request at position `i` served on it. -/
theorem run_take_succ (B : Binder) (s : List album) (rs : List Request) (i : Nat)
    (hi : i < rs.length) :
    run B s (rs.take (i + 1)) = (router B rs[i] (run B s (rs.take i))).2 := by
  rw [List.take_succ, List.getElem?_eq_getElem hi]
  exact run_append_singleton B s (rs.take i) rs[i]

/-- A collection that begins with the seed records has them as its first three. -/
theorem take_three_of_extends (s : List album) (h : albums <+: s) : s.take 3 = albums := by
  obtain ⟨t, ht⟩ := h
  rw [← ht]
  rfl

/-- C9: from the initial state, whatever the sequence of requests (list, fetch, create with
a body that binds or one that does not), the collection reached begins with the three
seed records, and at each step the collection before is the beginning of the
collection after: the step leaves it as it was, unless the request is a create whose
body is bound without error, and then the bound album is put behind it. -/
theorem collection_only_grows (B : Binder) (rs : List Request) :
    albums <+: run B albums rs ∧
    (run B albums rs).take 3 = albums ∧
    ∀ (i : Nat) (hi : i < rs.length),
      albums <+: run B albums (rs.take i) ∧
      (run B albums (rs.take i)).take 3 = albums ∧
      run B albums (rs.take i) <+: run B albums (rs.take (i + 1)) ∧
      (run B albums (rs.take (i + 1)) = run B albums (rs.take i) ∨
        ∃ body c1 a, rs[i] = Request.POST_albums body ∧
          B (Request.POST_albums body).context album.zero = (c1, a, none) ∧
          run B albums (rs.take (i + 1)) = run B albums (rs.take i) ++ [a]) := by
  refine ⟨run_extends B rs albums, take_three_of_extends _ (run_extends B rs albums), ?_⟩
  intro i hi
  have hstep := run_take_succ B albums rs i hi
  have hcases := router_snd B rs[i] (run B albums (rs.take i))
  refine ⟨run_extends B (rs.take i) albums,
    take_three_of_extends _ (run_extends B (rs.take i) albums), ?_, ?_⟩
  · rcases hcases with h | ⟨_, _, a, _, _, h⟩
    · exact ⟨[], by simp [hstep, h]⟩
    · exact ⟨[a], by simp [hstep, h]⟩
  · rcases hcases with h | ⟨body, c1, a, hr, hB, h⟩
    · exact Or.inl (by rw [hstep, h])
    · exact Or.inr ⟨body, c1, a, hr, hB, by rw [hstep, h]⟩

/-- Witness of C9: list, create of id 4, create with a body that is not JSON, fetch of
id 4, create of a second id 1; the second step appends, the third does not. -/
theorem collection_only_grows_witness :
    run exampleBindJSON albums [Request.GET_albums, Request.POST_albums body4,
        Request.POST_albums "not json", Request.GET_albums_id "4",
        Request.POST_albums body1] = albums ++ [album4, album1] ∧
    albums <+: run exampleBindJSON albums [Request.GET_albums, Request.POST_albums body4,
        Request.POST_albums "not json", Request.GET_albums_id "4",
        Request.POST_albums body1] ∧
    run exampleBindJSON albums ([Request.GET_albums, Request.POST_albums body4,
        Request.POST_albums "not json", Request.GET_albums_id "4",
        Request.POST_albums body1].take 1) <+:
      run exampleBindJSON albums ([Request.GET_albums, Request.POST_albums body4,
        Request.POST_albums "not json", Request.GET_albums_id "4",
        Request.POST_albums body1].take (1 + 1)) ∧
    run exampleBindJSON albums ([Request.GET_albums, Request.POST_albums body4,
        Request.POST_albums "not json", Request.GET_albums_id "4",
        Request.POST_albums body1].take 3) =
      run exampleBindJSON albums ([Request.GET_albums, Request.POST_albums body4,
        Request.POST_albums "not json", Request.GET_albums_id "4",
        Request.POST_albums body1].take 2) :=
  ⟨by decide,
   (collection_only_grows exampleBindJSON [Request.GET_albums, Request.POST_albums body4,
      Request.POST_albums "not json", Request.GET_albums_id "4",
      Request.POST_albums body1]).1,
   ((collection_only_grows exampleBindJSON [Request.GET_albums, Request.POST_albums body4,
      Request.POST_albums "not json", Request.GET_albums_id "4",
      Request.POST_albums body1]).2.2 1 (by decide)).2.2.1,
   by decide⟩

/-! ## Create, then fetch -/

/-- C10: when the body is bound without error to an album `a` whose ID is not in the
collection, a fetch of `a.ID` that answered 404 before `postAlbums` answers 200 with
body `a` after it, and a fetch of any other id gets the same response as before. -/
theorem create_then_fetch (B : Binder) (c c1 : Context) (s : List album) (a : album)
    (h : B c album.zero = (c1, a, none)) (hnew : ∀ b ∈ s, b.ID ≠ a.ID) (c2 : Context) :
    (c2.Param "id" = a.ID →
      (getAlbumByID c2 s).1.Written =
        c2.Written ++ [⟨404, Any.H [("message", "album not found")]⟩] ∧
      (getAlbumByID c2 (postAlbums B c s).2).1.Written =
        c2.Written ++ [⟨200, Any.album a⟩]) ∧
    (c2.Param "id" ≠ a.ID →
      (getAlbumByID c2 (postAlbums B c s).2).1 = (getAlbumByID c2 s).1) := by
  have hp := postAlbums_of_bound B c c1 s a h
  constructor
  · intro hq
    have habs : ∀ b ∈ s, b.ID ≠ c2.Param "id" := by
      intro b hb
      rw [hq]
      exact hnew b hb
    have hnone := (loop_eq_none_iff c2 (c2.Param "id") s).mpr habs
    have happ := loop_append_of_none c2 (c2.Param "id") s [a] hnone
    refine ⟨by simp [getAlbumByID_of_absent c2 s habs, Context.IndentedJSON, StatusNotFound],
      ?_⟩
    have hloop : getAlbumByID.loop c2 (c2.Param "id") (s ++ [a]) =
        some (c2.IndentedJSON StatusOK (Any.album a)) := by
      rw [happ]
      simp [getAlbumByID.loop, hq]
    rw [hp]
    simp only [getAlbumByID, hloop]
    simp [Context.IndentedJSON, StatusOK]
  · intro hq
    by_cases hex : ∃ b ∈ s, b.ID = c2.Param "id"
    · simp [hp, getAlbumByID_append_of_present c2 s [a] hex]
    · have habs : ∀ b ∈ s, b.ID ≠ c2.Param "id" :=
        fun b hb hid => hex ⟨b, hb, hid⟩
      have hnone := (loop_eq_none_iff c2 (c2.Param "id") s).mpr habs
      have happ := loop_append_of_none c2 (c2.Param "id") s [a] hnone
      have ha : ¬ a.ID = c2.Param "id" := fun hid => hq hid.symm
      simp [hp, getAlbumByID, happ, hnone, getAlbumByID.loop, ha]

/-- Witness of C10: the create example on the seed collection, then a fetch of id 4. -/
theorem create_then_fetch_witness :
    exampleBindJSON (createContext body4) album.zero = (createContext body4, album4, none) ∧
    (∀ b ∈ albums, b.ID ≠ album4.ID) ∧
    (getAlbumByID (fetchContext "4") albums).1.Written =
      (fetchContext "4").Written ++ [⟨404, Any.H [("message", "album not found")]⟩] ∧
    (getAlbumByID (fetchContext "4")
        (postAlbums exampleBindJSON (createContext body4) albums).2).1.Written =
      (fetchContext "4").Written ++ [⟨200, Any.album album4⟩] :=
  ⟨by decide, by decide,
   (create_then_fetch exampleBindJSON (createContext body4) (createContext body4) albums
      album4 (by decide) (by decide) (fetchContext "4")).1 (by decide)⟩

end WebAPI
